import Mathlib

/-!
Shallow embedding of the X Lead Tracker source (x_lead_tracker_ui.py).

Python strings are modelled as Lean `String` (character lists where the
string algorithms matter), Python dicts for leads/posts as structures with
`Option` fields (a missing dict key is `none`, and `d.get(k, default)`
becomes `Option.getD`), Python lists as `List`, and the two external
collaborators (the X client and the qualification agent) as an explicit
environment `ExternalEnv` that fixes the outcome of every external call.
Machine integers do not occur: Python integers are unbounded, so scores are
`Int` and counters are `Nat`.
-/

namespace XLT

/-! ## Python string helpers (str.strip, str.split) -/

/-- Whitespace characters recognised by Python `str.strip()`. -/
def isPySpace (c : Char) : Bool :=
  c = ' ' || c = '\t' || c = '\n' || c = '\r' || c = '\x0b' || c = '\x0c'

/-- Python `s.strip()` on a character list: drop whitespace from both ends. -/
def stripChars (cs : List Char) : List Char :=
  ((cs.dropWhile isPySpace).reverse.dropWhile isPySpace).reverse

/-- Python `s.split(chr(10))`: split a character list at every newline.
The result is always nonempty; splitting the empty string gives one empty
piece, as in Python. -/
def splitLines : List Char → List (List Char)
  | [] => [[]]
  | c :: cs =>
    if c = '\n' then [] :: splitLines cs
    else
      match splitLines cs with
      | [] => [[c]]
      | l :: ls => (c :: l) :: ls

/-- Line 402: `[q.strip() for q in search_queries_text.split(chr(10)) if q.strip()]` —
split the text area into lines, strip each, keep the nonempty ones. -/
def parse_queries (t : String) : List String :=
  (((splitLines t.toList).map stripChars).filter (fun q => !q.isEmpty)).map
    (fun cs => String.mk cs)

/-! ## Data model -/

/-- Engagement metrics sub-dict of a post/lead (likes, retweets, replies). -/
structure EngagementMetrics where
  likes : Nat
  retweets : Nat
  replies : Nat
deriving Repr, DecidableEq

/-- A post dict as the UI reads it (tab 3): every key may be absent. -/
structure Post where
  id : Option String
  author : Option String
  content : Option String
  url : Option String
  status : Option String
deriving Repr, DecidableEq

/-- A lead dict as the UI reads it (tab 2 / export tab): every key may be
absent, since the UI accesses each field with `lead.get(key, default)`. -/
structure Lead where
  author : Option String
  score : Option Int
  content : Option String
  url : Option String
  engagement_metrics : Option EngagementMetrics
  business_context : Option String
  decision_authority : Option String
  pain_points : Option (List String)
  budget_indicators : Option String
  red_flags : Option String
  recommendation : Option String
deriving Repr, DecidableEq

/-- Python `lead.get(score-key, 0)`: the score the presentation layer works
with — 0 when the key is absent. -/
def getScore (l : Lead) : Int := l.score.getD 0

/-- Python `lead.get(author-key, empty string)`: the author key used for
sorting. -/
def getAuthor (l : Lead) : String := l.author.getD ""

/-- The `search_stats` dict: three counters and an optional timestamp string
(`last_search` is `None` initially and absent inside `track_leads_on_x`
until the run completes; both are modelled as `none`). -/
structure RunStats where
  total_posts : Nat
  analyzed_posts : Nat
  leads_found : Nat
  last_search : Option String
deriving Repr, DecidableEq

/-- Lines 296-302: the fresh stats dict at the start of `track_leads_on_x`
(no `last_search` key yet) and lines 83-88 / 383-388: the initial session
stats (`last_search: None`). -/
def fresh_stats : RunStats :=
  { total_posts := 0, analyzed_posts := 0, leads_found := 0, last_search := none }

/-! ## External environment -/

/-- Outcome of one `agent.run(prompt)` call: the textual response, or the
exception message when the call raises. -/
inductive QueryOutcome where
  | success (response : String)
  | failure (msg : String)
deriving Repr, DecidableEq

/-- True when the outcome is a successful agent response. -/
def QueryOutcome.isSuccess : QueryOutcome → Bool
  | .success _ => true
  | .failure _ => false

/-- The two external collaborators, made explicit: whether constructing the
X client (`XTools(...)`, lines 217-233) raises, whether constructing the
agent (`Agent(...)`, lines 236-280) raises, and the outcome of
`agent.run(prompt)` for every prompt. -/
structure ExternalEnv where
  init_error : Option String
  agent_error : Option String
  run : String → QueryOutcome

/-- Lines 330-347: the f-string prompt sent to `agent.run` for one query. -/
def search_prompt (query : String) (max_posts_per_query : Nat) : String :=
  "\n                Search X for posts matching: \"" ++ query ++ "\"\n" ++
  "                \n" ++
  "                Find recent posts (last 7 days) where people are discussing:\n" ++
  "                - Need for BI tools or dashboards\n" ++
  "                - Data visualization challenges\n" ++
  "                - Business analytics requirements\n" ++
  "                - Reporting and analytics pain points\n" ++
  "                \n" ++
  "                Return up to " ++ toString max_posts_per_query ++
  " most relevant posts with:\n" ++
  "                - Post ID\n" ++
  "                - Author username\n" ++
  "                - Post content/text\n" ++
  "                - Post URL\n" ++
  "                - Engagement metrics (likes, retweets, replies)\n" ++
  "                \n" ++
  "                Format each post clearly with all details.\n" ++
  "                "

/-- Line 360: the `st.warning` message for a failed query (quote marks around
the query elided). -/
def warning_message (query msg : String) : String :=
  "Error processing query " ++ query ++ ": " ++ msg

/-- Everything `track_leads_on_x` produces or emits: its return value
(leads, all_posts, stats) plus the observable external/UI effects — the
prompts actually sent to the agent, the per-query `st.warning` messages, and
the `st.error` message of the outer exception handler, if any. -/
structure RunOutcome where
  leads : List Lead
  all_posts : List Post
  stats : RunStats
  agent_calls : List String
  warnings : List String
  fatal_error : Option String
deriving Repr, DecidableEq

/-- Accumulator of the query loop (lines 325-364): the stats dict plus the
call and warning traces. `leads` and `all_posts` are not part of it because
the loop body never touches them. -/
structure LoopState where
  stats : RunStats
  agent_calls : List String
  warnings : List String
deriving Repr, DecidableEq

/-- Lines 325-364: the per-query loop. For each query the prompt is built
and `agent.run` is attempted (so the call is recorded either way); on
success the line `stats[total-posts-key] += max_posts_per_query` runs; when
`agent.run` raises, that increment is skipped (it sits after the call inside
the same `try`) and a warning is recorded instead. The loop then continues
with the next query. -/
def process_queries (env : ExternalEnv) (max_posts_per_query : Nat) :
    List String → LoopState → LoopState
  | [], s => s
  | q :: qs, s =>
    let prompt := search_prompt q max_posts_per_query
    let s1 : LoopState := { s with agent_calls := s.agent_calls ++ [prompt] }
    let s2 : LoopState :=
      match env.run prompt with
      | .success _ =>
        { s1 with stats :=
            { s1.stats with total_posts := s1.stats.total_posts + max_posts_per_query } }
      | .failure msg =>
        { s1 with warnings := s1.warnings ++ [warning_message q msg] }
    process_queries env max_posts_per_query qs s2

/-- Lines 283-376: `track_leads_on_x`. `leads` and `all_posts` start empty
and are never appended to (the agent response is never parsed, lines
352-354). Client construction or agent construction raising is caught by
the outer handler, which reports `st.error` and returns `[], [], stats`
with the stats still fresh. Otherwise every query is processed in order and
`stats[last-search-key]` is set to the completion timestamp. The unused
credential and `min_lead_score` parameters are kept to mirror the source
signature. -/
def track_leads_on_x (env : ExternalEnv) (search_queries : List String)
    (openai_api_key x_consumer_key x_consumer_secret x_access_token
      x_access_token_secret x_bearer_token : String)
    (max_posts_per_query : Nat) (min_lead_score : Int) (now : String) :
    RunOutcome :=
  match env.init_error with
  | some e =>
    { leads := [], all_posts := [], stats := fresh_stats,
      agent_calls := [], warnings := [], fatal_error := some e }
  | none =>
    match env.agent_error with
    | some e =>
      { leads := [], all_posts := [], stats := fresh_stats,
        agent_calls := [], warnings := [], fatal_error := some e }
    | none =>
      let s := process_queries env max_posts_per_query search_queries
        { stats := fresh_stats, agent_calls := [], warnings := [] }
      { leads := [], all_posts := [],
        stats := { s.stats with last_search := some now },
        agent_calls := s.agent_calls, warnings := s.warnings,
        fatal_error := none }

/-! ## Search-button validation (lines 393-415) -/

/-- The two validation rejections of the search handler: a missing
credential (lines 395-398) or an empty query set (line 399). -/
inductive ValidationError where
  | MissingCredential
  | EmptyQuerySet
deriving Repr, DecidableEq

/-- Lines 393-415: the search-button handler. Empty OpenAI key, then any
empty X credential, reject with a missing-credential error; a query text
that strips to nothing rejects with an empty-query-set error; otherwise the
queries are parsed and `track_leads_on_x` runs. External calls happen only
inside `track_leads_on_x`, so an error result performs none. -/
def search_button_handler (env : ExternalEnv)
    (openai_api_key x_consumer_key x_consumer_secret x_access_token
      x_access_token_secret x_bearer_token : String)
    (search_queries_text : String)
    (max_posts_per_query : Nat) (min_lead_score : Int) (now : String) :
    Except ValidationError RunOutcome :=
  if openai_api_key = "" then
    .error .MissingCredential
  else if x_consumer_key = "" ∨ x_consumer_secret = "" ∨ x_access_token = "" ∨
      x_access_token_secret = "" ∨ x_bearer_token = "" then
    .error .MissingCredential
  else if stripChars search_queries_text.toList = [] then
    .error .EmptyQuerySet
  else
    .ok (track_leads_on_x env (parse_queries search_queries_text)
      openai_api_key x_consumer_key x_consumer_secret x_access_token
      x_access_token_secret x_bearer_token max_posts_per_query min_lead_score now)

/-! ## Presentation formatter -/

/-- The three display buckets. -/
inductive Bucket where
  | High
  | Medium
  | Low
deriving Repr, DecidableEq

/-- Lines 469-472 and 527: a score of 8 or more is High, 5 to 7 is Medium,
below 5 is Low. -/
def bucket (score : Int) : Bucket :=
  if 8 ≤ score then .High else if 5 ≤ score then .Medium else .Low

/-- Lines 468-473: the score distribution shown on the dashboard —
how many leads score at least 8, between 5 and 7, and below 5. -/
def score_counts (leads : List Lead) : Nat × Nat × Nat :=
  let scores := leads.map getScore
  ((scores.filter (fun s => decide (8 ≤ s))).length,
   (scores.filter (fun s => decide (5 ≤ s ∧ s < 8))).length,
   (scores.filter (fun s => decide (s < 5))).length)

/-- Lines 504-512: the three sequential exclusion filters. When a bucket is
not selected, the leads falling in it are removed. -/
def filtered_leads (leads : List Lead) (filter_score : List Bucket) : List Lead :=
  let fl := leads
  let fl := if Bucket.High ∈ filter_score then fl
    else fl.filter (fun l => decide (getScore l < 8))
  let fl := if Bucket.Medium ∈ filter_score then fl
    else fl.filter (fun l => decide (¬(5 ≤ getScore l ∧ getScore l < 8)))
  let fl := if Bucket.Low ∈ filter_score then fl
    else fl.filter (fun l => decide (5 ≤ getScore l))
  fl

/-- Lines 493-496: the three sort orders of the leads tab. -/
inductive SortKey where
  | score_desc
  | score_asc
  | author_asc
deriving Repr, DecidableEq

/-- The comparison each sort order uses. Python `list.sort(key=k)` is a
stable ascending sort on the key, and `reverse=True` is a stable descending
sort, so the descending order compares scores the opposite way while equal
scores keep their input order. -/
def leadLE : SortKey → Lead → Lead → Bool
  | .score_desc => fun a b => decide (getScore b ≤ getScore a)
  | .score_asc => fun a b => decide (getScore a ≤ getScore b)
  | .author_asc => fun a b => decide (getAuthor a ≤ getAuthor b)

/-- Lines 514-520: `filtered_leads.sort(...)`, a stable sort (Python list
sort) modelled by the stable `List.mergeSort`. -/
def sortLeads (k : SortKey) (leads : List Lead) : List Lead :=
  leads.mergeSort (leadLE k)

/-- Whether two leads have equal sort keys under a given order: equal score
for the two score orders, equal author for the author order. -/
def sameKey : SortKey → Lead → Lead → Prop
  | .score_desc => fun a b => getScore a = getScore b
  | .score_asc => fun a b => getScore a = getScore b
  | .author_asc => fun a b => getAuthor a = getAuthor b

/-! ## Session state and the clear button -/

/-- Lines 78-88: the session collections: leads, all_posts, search_stats. -/
structure SessionState where
  leads : List Lead
  all_posts : List Post
  search_stats : RunStats
deriving Repr, DecidableEq

/-- Lines 78-88: the initial session state. -/
def initial_session : SessionState :=
  { leads := [], all_posts := [], search_stats := fresh_stats }

/-- Lines 380-390: the clear-button handler resets all three session
collections, ignoring whatever they held. -/
def clear_results (s : SessionState) : SessionState :=
  { leads := [], all_posts := [],
    search_stats :=
      { total_posts := 0, analyzed_posts := 0, leads_found := 0, last_search := none } }

/-! ## Concrete sample values used by witnesses and counterexamples -/

/-- Environment in which both constructions succeed and every agent call
returns a response. -/
def allSuccessEnv : ExternalEnv :=
  { init_error := none, agent_error := none, run := fun _ => .success "ok" }

/-- Environment in which both constructions succeed but every agent call
raises. -/
def allFailEnv : ExternalEnv :=
  { init_error := none, agent_error := none, run := fun _ => .failure "boom" }

/-- Environment in which constructing the X client raises. -/
def fatalInitEnv : ExternalEnv :=
  { init_error := some "boom", agent_error := none, run := fun _ => .success "ok" }

/-- A lead dict with no keys at all — in particular no score key. -/
def blank_lead : Lead :=
  { author := none, score := none, content := none, url := none,
    engagement_metrics := none, business_context := none,
    decision_authority := none, pain_points := none,
    budget_indicators := none, red_flags := none, recommendation := none }

/-- A lead dict carrying only a positive score. -/
def scored_lead : Lead := { blank_lead with score := some 3 }

/-! ## Helper lemmas: Python string functions -/

theorem stripChars_eq_nil_iff (cs : List Char) :
    stripChars cs = [] ↔ ∀ c ∈ cs, isPySpace c := by
  unfold stripChars
  rw [List.reverse_eq_nil_iff, List.dropWhile_eq_nil_iff]
  constructor
  · intro h c hc
    have hsplit := List.takeWhile_append_dropWhile (p := isPySpace) (l := cs)
    rw [← hsplit] at hc
    rcases List.mem_append.mp hc with h1 | h1
    · exact List.mem_takeWhile_imp h1
    · exact h c (List.mem_reverse.mpr h1)
  · intro h c hc
    exact h c ((List.dropWhile_sublist _).subset (List.mem_reverse.mp hc))

theorem splitLines_ne_nil (cs : List Char) : splitLines cs ≠ [] := by
  induction cs with
  | nil => simp [splitLines]
  | cons c cs ih =>
    by_cases hc : c = '\n'
    · simp [splitLines, hc]
    · cases h : splitLines cs with
      | nil => exact absurd h ih
      | cons l ls => simp [splitLines, hc, h]

theorem splitLines_all_space (cs : List Char) :
    (∀ p ∈ splitLines cs, ∀ c ∈ p, isPySpace c) ↔ (∀ c ∈ cs, isPySpace c) := by
  induction cs with
  | nil => simp [splitLines]
  | cons c cs ih =>
    have hnl : isPySpace '\n' = true := by decide
    by_cases hc : c = '\n'
    · subst hc
      simp only [splitLines, eq_self_iff_true, if_true, List.forall_mem_cons,
        List.not_mem_nil, false_implies, implies_true, true_and]
      rw [ih]
      simp [hnl]
    · cases h : splitLines cs with
      | nil => exact absurd h (splitLines_ne_nil cs)
      | cons l ls =>
        rw [h] at ih
        simp only [splitLines, if_neg hc, h, List.forall_mem_cons] at ih ⊢
        constructor
        · rintro ⟨⟨h0, h1⟩, h2⟩
          exact ⟨h0, ih.mp ⟨h1, h2⟩⟩
        · rintro ⟨h0, h1⟩
          exact ⟨⟨h0, (ih.mpr h1).1⟩, (ih.mpr h1).2⟩

theorem parse_queries_eq_nil_iff (t : String) :
    parse_queries t = [] ↔ stripChars t.toList = [] := by
  unfold parse_queries
  rw [List.map_eq_nil_iff, List.filter_eq_nil_iff]
  have hempty : ∀ (p : List Char), (¬ (!p.isEmpty) = true) ↔ p = [] := by
    intro p; cases p <;> simp
  constructor
  · intro h
    rw [stripChars_eq_nil_iff, ← splitLines_all_space]
    intro p hp
    rw [← stripChars_eq_nil_iff]
    exact (hempty _).mp (h (stripChars p) (List.mem_map.mpr ⟨p, hp, rfl⟩))
  · intro h q hq
    rcases List.mem_map.mp hq with ⟨p, hp, rfl⟩
    refine (hempty _).mpr ?_
    rw [stripChars_eq_nil_iff]
    exact (splitLines_all_space t.toList).mpr
      ((stripChars_eq_nil_iff t.toList).mp h) p hp

/-! ## Helper lemmas: the query loop -/

theorem process_queries_total_posts (env : ExternalEnv) (maxp : Nat)
    (qs : List String) : ∀ s : LoopState,
    (process_queries env maxp qs s).stats.total_posts
      = s.stats.total_posts
        + maxp * qs.countP (fun q => (env.run (search_prompt q maxp)).isSuccess) := by
  induction qs with
  | nil => intro s; simp [process_queries]
  | cons q qs ih =>
    intro s
    cases h : env.run (search_prompt q maxp) with
    | success r =>
      simp only [process_queries, h]
      rw [ih]
      simp [List.countP_cons, h, QueryOutcome.isSuccess, Nat.mul_add]
      omega
    | failure m =>
      simp only [process_queries, h]
      rw [ih]
      simp [List.countP_cons, h, QueryOutcome.isSuccess]

theorem process_queries_calls (env : ExternalEnv) (maxp : Nat)
    (qs : List String) : ∀ s : LoopState,
    (process_queries env maxp qs s).agent_calls
      = s.agent_calls ++ qs.map (fun q => search_prompt q maxp) := by
  induction qs with
  | nil => intro s; simp [process_queries]
  | cons q qs ih =>
    intro s
    cases h : env.run (search_prompt q maxp) with
    | success r => simp only [process_queries, h]; rw [ih]; simp
    | failure m => simp only [process_queries, h]; rw [ih]; simp

/-- The warning a single query generates, if any. -/
def query_warning (env : ExternalEnv) (maxp : Nat) (q : String) : Option String :=
  match env.run (search_prompt q maxp) with
  | .success _ => none
  | .failure m => some (warning_message q m)

theorem process_queries_warnings (env : ExternalEnv) (maxp : Nat)
    (qs : List String) : ∀ s : LoopState,
    (process_queries env maxp qs s).warnings
      = s.warnings ++ qs.filterMap (query_warning env maxp) := by
  induction qs with
  | nil => intro s; simp [process_queries]
  | cons q qs ih =>
    intro s
    cases h : env.run (search_prompt q maxp) with
    | success r =>
      simp only [process_queries, h]
      rw [ih]; simp [query_warning, h, List.filterMap_cons]
    | failure m =>
      simp only [process_queries, h]
      rw [ih]; simp [query_warning, h, List.filterMap_cons]

theorem track_run_eq (env : ExternalEnv) (qs : List String)
    (o ck cs at1 ats bt : String) (maxp : Nat) (minsc : Int) (now : String)
    (h1 : env.init_error = none) (h2 : env.agent_error = none) :
    track_leads_on_x env qs o ck cs at1 ats bt maxp minsc now
      = { leads := [], all_posts := [],
          stats := { (process_queries env maxp qs
              { stats := fresh_stats, agent_calls := [], warnings := [] }).stats
            with last_search := some now },
          agent_calls := (process_queries env maxp qs
            { stats := fresh_stats, agent_calls := [], warnings := [] }).agent_calls,
          warnings := (process_queries env maxp qs
            { stats := fresh_stats, agent_calls := [], warnings := [] }).warnings,
          fatal_error := none } := by
  simp only [track_leads_on_x, h1, h2]

/-! ## Helper lemmas: the presentation formatter -/

theorem filtered_leads_eq_filter (leads : List Lead) (sel : List Bucket) :
    filtered_leads leads sel
      = leads.filter (fun l => decide (bucket (getScore l) ∈ sel)) := by
  unfold filtered_leads
  by_cases hH : Bucket.High ∈ sel <;> by_cases hM : Bucket.Medium ∈ sel <;>
    by_cases hL : Bucket.Low ∈ sel <;>
    simp only [hH, hM, hL, if_true, if_false, List.filter_filter] <;>
    first
      | (refine (List.filter_eq_self.mpr ?_).symm
         intro a ha
         by_cases h8 : (8 : Int) ≤ getScore a <;> by_cases h5 : (5 : Int) ≤ getScore a <;>
           simp [bucket, h8, h5, hH, hM, hL] <;> omega)
      | (refine List.filter_congr ?_
         intro a ha
         by_cases h8 : (8 : Int) ≤ getScore a <;> by_cases h5 : (5 : Int) ≤ getScore a <;>
           simp [bucket, h8, h5, hH, hM, hL] <;> omega)

theorem leadLE_trans (k : SortKey) : ∀ a b c : Lead,
    leadLE k a b → leadLE k b c → leadLE k a c := by
  cases k <;> intro a b c h1 h2 <;>
    simp only [leadLE, decide_eq_true_eq] at h1 h2 ⊢
  · omega
  · omega
  · exact le_trans h1 h2

theorem leadLE_total (k : SortKey) : ∀ a b : Lead,
    leadLE k a b || leadLE k b a := by
  cases k <;> intro a b <;>
    simp only [leadLE, Bool.or_eq_true, decide_eq_true_eq]
  · omega
  · omega
  · exact le_total _ _

theorem leadLE_of_sameKey (k : SortKey) (a b : Lead) (h : sameKey k a b) :
    leadLE k a b := by
  cases k <;> simp only [sameKey] at h <;>
    simp [leadLE, h]

/-! ## Claims -/

/-- C1: for every run of the pipeline, regardless of queries, parameters and
external-call outcomes, the returned leads list and all_posts list are both
empty — no lead or post record is ever materialized, because the agent
response is never parsed. -/
theorem C1_run_yields_no_leads_or_posts (env : ExternalEnv) (qs : List String)
    (o ck cs at1 ats bt : String) (maxp : Nat) (minsc : Int) (now : String) :
    (track_leads_on_x env qs o ck cs at1 ats bt maxp minsc now).leads = []
    ∧ (track_leads_on_x env qs o ck cs at1 ats bt maxp minsc now).all_posts = [] := by
  cases h1 : env.init_error with
  | some e => simp [track_leads_on_x, h1]
  | none =>
    cases h2 : env.agent_error with
    | some e => simp [track_leads_on_x, h1, h2]
    | none => simp [track_leads_on_x, h1, h2]

/-- C2: in every run that reaches the query loop (client and agent
construction succeed) and in which every per-query agent call succeeds,
the returned total_posts counter equals max_posts_per_query times the
number of queries. -/
theorem C2_total_posts_on_all_success (env : ExternalEnv) (qs : List String)
    (o ck cs at1 ats bt : String) (maxp : Nat) (minsc : Int) (now : String)
    (h1 : env.init_error = none) (h2 : env.agent_error = none)
    (h3 : ∀ q ∈ qs, (env.run (search_prompt q maxp)).isSuccess = true) :
    (track_leads_on_x env qs o ck cs at1 ats bt maxp minsc now).stats.total_posts
      = maxp * qs.length := by
  rw [track_run_eq env qs o ck cs at1 ats bt maxp minsc now h1 h2]
  simp [process_queries_total_posts, fresh_stats, List.countP_eq_length.mpr h3]

/-- Witness for C2: two queries, all calls succeed, max 50 per query, so
the total is 100. -/
theorem C2_total_posts_on_all_success_witness :
    (track_leads_on_x allSuccessEnv ["a", "b"] "k" "c1" "c2" "c3" "c4" "c5"
        50 6 "t").stats.total_posts = 50 * 2 := by
  have h := C2_total_posts_on_all_success allSuccessEnv ["a", "b"] "k" "c1" "c2"
    "c3" "c4" "c5" 50 6 "t" rfl rfl (fun q _ => rfl)
  simpa using h

/-- C3 counterexample: the claim says total_posts is incremented by
max_posts_per_query for every query attempted, failing ones included; in a
run with one query whose agent call raises, the claim predicts 50 but the
increment sits after the call inside the same try block and is skipped, so
the counter stays 0. -/
theorem C3_increment_on_failure_cex :
    (track_leads_on_x allFailEnv ["looking for BI dashboard tool"] "k" "c1"
        "c2" "c3" "c4" "c5" 50 6 "t").stats.total_posts ≠ 50 := by
  rw [track_run_eq allFailEnv _ _ _ _ _ _ _ _ _ _ rfl rfl]
  simp [process_queries_total_posts, fresh_stats, QueryOutcome.isSuccess, allFailEnv]

/-- C3 (amended): in every run that reaches the query loop, total_posts is
incremented by max_posts_per_query exactly for each query whose agent call
succeeds; a query whose call raises skips the increment. -/
theorem C3_total_posts_counts_successful_queries (env : ExternalEnv)
    (qs : List String) (o ck cs at1 ats bt : String) (maxp : Nat)
    (minsc : Int) (now : String)
    (h1 : env.init_error = none) (h2 : env.agent_error = none) :
    (track_leads_on_x env qs o ck cs at1 ats bt maxp minsc now).stats.total_posts
      = maxp * qs.countP (fun q => (env.run (search_prompt q maxp)).isSuccess) := by
  rw [track_run_eq env qs o ck cs at1 ats bt maxp minsc now h1 h2]
  simp [process_queries_total_posts, fresh_stats]

/-- Witness for the amended C3: one failing query contributes nothing. -/
theorem C3_total_posts_counts_successful_queries_witness :
    (track_leads_on_x allFailEnv ["a"] "k" "c1" "c2" "c3" "c4" "c5"
        50 6 "t").stats.total_posts
      = 50 * List.countP (fun q => (allFailEnv.run (search_prompt q 50)).isSuccess) ["a"] :=
  C3_total_posts_counts_successful_queries allFailEnv ["a"] "k" "c1" "c2" "c3"
    "c4" "c5" 50 6 "t" rfl rfl

/-- C4: when the agent call of one query raises, the error is caught: the
run still sends a prompt for every query in order, the failing query
contributes no posts, no leads and no total_posts (the totals agree with
the run that omits it), its warning is reported, and the run ends without a
fatal error — a per-query failure never aborts the run. -/
theorem C4_per_query_failure_isolated (env : ExternalEnv)
    (pre post : List String) (qf msg : String)
    (o ck cs at1 ats bt : String) (maxp : Nat) (minsc : Int) (now : String)
    (h1 : env.init_error = none) (h2 : env.agent_error = none)
    (h3 : env.run (search_prompt qf maxp) = .failure msg) :
    (track_leads_on_x env (pre ++ qf :: post) o ck cs at1 ats bt maxp minsc now).leads = []
    ∧ (track_leads_on_x env (pre ++ qf :: post) o ck cs at1 ats bt maxp minsc now).all_posts = []
    ∧ (track_leads_on_x env (pre ++ qf :: post) o ck cs at1 ats bt maxp minsc now).agent_calls
        = (pre ++ qf :: post).map (fun q => search_prompt q maxp)
    ∧ (track_leads_on_x env (pre ++ qf :: post) o ck cs at1 ats bt maxp minsc now).stats.total_posts
        = (track_leads_on_x env (pre ++ post) o ck cs at1 ats bt maxp minsc now).stats.total_posts
    ∧ warning_message qf msg
        ∈ (track_leads_on_x env (pre ++ qf :: post) o ck cs at1 ats bt maxp minsc now).warnings
    ∧ (track_leads_on_x env (pre ++ qf :: post) o ck cs at1 ats bt maxp minsc now).fatal_error
        = none := by
  rw [track_run_eq env (pre ++ qf :: post) o ck cs at1 ats bt maxp minsc now h1 h2,
    track_run_eq env (pre ++ post) o ck cs at1 ats bt maxp minsc now h1 h2]
  refine ⟨rfl, rfl, ?_, ?_, ?_, rfl⟩
  · simp [process_queries_calls]
  · simp [process_queries_total_posts, List.countP_append, List.countP_cons, h3,
      QueryOutcome.isSuccess]
  · simp only [process_queries_warnings, List.nil_append]
    exact List.mem_filterMap.mpr ⟨qf, by simp, by simp [query_warning, h3]⟩

/-- Witness for C4: queries a, f, b where the call for f (like the others
here) raises; every prompt is still sent and the warning for f appears. -/
theorem C4_per_query_failure_isolated_witness :
    (track_leads_on_x allFailEnv (["a"] ++ "f" :: ["b"]) "k" "c1" "c2" "c3"
        "c4" "c5" 50 6 "t").agent_calls
      = (["a"] ++ "f" :: ["b"]).map (fun q => search_prompt q 50)
    ∧ warning_message "f" "boom"
        ∈ (track_leads_on_x allFailEnv (["a"] ++ "f" :: ["b"]) "k" "c1" "c2"
            "c3" "c4" "c5" 50 6 "t").warnings := by
  have h := C4_per_query_failure_isolated allFailEnv ["a"] ["b"] "f" "boom"
    "k" "c1" "c2" "c3" "c4" "c5" 50 6 "t" rfl rfl rfl
  exact ⟨h.2.2.1, h.2.2.2.2.1⟩

/-- C5: validation fails exactly as claimed — an empty OpenAI key or any
empty X credential is rejected as a missing credential; with all
credentials present, a query text whose trimmed query list is empty is
rejected as an empty query set; otherwise the pipeline runs on the parsed
queries. A rejected submission never reaches `track_leads_on_x` (the only
place external calls happen), so the rejection is the same whatever the
external environment would have answered. -/
theorem C5_validation_exact (env : ExternalEnv)
    (o ck cs at1 ats bt qtext : String) (maxp : Nat) (minsc : Int) (now : String) :
    ((o = "" ∨ ck = "" ∨ cs = "" ∨ at1 = "" ∨ ats = "" ∨ bt = "") →
        search_button_handler env o ck cs at1 ats bt qtext maxp minsc now
          = .error .MissingCredential)
    ∧ (o ≠ "" → ck ≠ "" → cs ≠ "" → at1 ≠ "" → ats ≠ "" → bt ≠ "" →
        parse_queries qtext = [] →
        search_button_handler env o ck cs at1 ats bt qtext maxp minsc now
          = .error .EmptyQuerySet)
    ∧ (o ≠ "" → ck ≠ "" → cs ≠ "" → at1 ≠ "" → ats ≠ "" → bt ≠ "" →
        parse_queries qtext ≠ [] →
        search_button_handler env o ck cs at1 ats bt qtext maxp minsc now
          = .ok (track_leads_on_x env (parse_queries qtext) o ck cs at1 ats bt
              maxp minsc now))
    ∧ ((∃ e, search_button_handler env o ck cs at1 ats bt qtext maxp minsc now
          = .error e) →
        ∀ env2 : ExternalEnv,
          search_button_handler env2 o ck cs at1 ats bt qtext maxp minsc now
            = search_button_handler env o ck cs at1 ats bt qtext maxp minsc now) := by
  refine ⟨?_, ?_, ?_, ?_⟩
  · intro h
    by_cases ho : o = ""
    · unfold search_button_handler; rw [if_pos ho]
    · have hd : ck = "" ∨ cs = "" ∨ at1 = "" ∨ ats = "" ∨ bt = "" := by tauto
      unfold search_button_handler; rw [if_neg ho, if_pos hd]
  · intro h1 h2 h3 h4 h5 h6 hq
    unfold search_button_handler
    rw [if_neg h1, if_neg (by tauto), if_pos ((parse_queries_eq_nil_iff qtext).mp hq)]
  · intro h1 h2 h3 h4 h5 h6 hq
    unfold search_button_handler
    rw [if_neg h1, if_neg (by tauto),
      if_neg (fun hs => hq ((parse_queries_eq_nil_iff qtext).mpr hs))]
  · rintro ⟨e, he⟩ env2
    by_cases ho : o = ""
    · unfold search_button_handler
      rw [if_pos ho, if_pos ho]
    · by_cases hd : ck = "" ∨ cs = "" ∨ at1 = "" ∨ ats = "" ∨ bt = ""
      · unfold search_button_handler
        rw [if_neg ho, if_pos hd, if_neg ho, if_pos hd]
      · by_cases hs : stripChars qtext.toList = []
        · unfold search_button_handler
          rw [if_neg ho, if_neg hd, if_pos hs, if_neg ho, if_neg hd, if_pos hs]
        · exfalso
          unfold search_button_handler at he
          rw [if_neg ho, if_neg hd, if_neg hs] at he
          exact Except.noConfusion he

/-- Witness for C5: an empty OpenAI key is rejected as missing credential;
a whitespace-only query text is rejected as an empty query set; complete
inputs run the pipeline. -/
theorem C5_validation_exact_witness :
    search_button_handler allSuccessEnv "" "c1" "c2" "c3" "c4" "c5" "q" 50 6 "t"
        = .error .MissingCredential
    ∧ search_button_handler allSuccessEnv "k" "c1" "c2" "c3" "c4" "c5" " \n  " 50 6 "t"
        = .error .EmptyQuerySet
    ∧ search_button_handler allSuccessEnv "k" "c1" "c2" "c3" "c4" "c5" "hello" 50 6 "t"
        = .ok (track_leads_on_x allSuccessEnv (parse_queries "hello") "k" "c1"
            "c2" "c3" "c4" "c5" 50 6 "t") := by
  refine ⟨(C5_validation_exact allSuccessEnv "" "c1" "c2" "c3" "c4" "c5" "q"
      50 6 "t").1 (Or.inl rfl),
    (C5_validation_exact allSuccessEnv "k" "c1" "c2" "c3" "c4" "c5" " \n  "
      50 6 "t").2.1 (by decide) (by decide) (by decide) (by decide) (by decide)
      (by decide) (by decide),
    (C5_validation_exact allSuccessEnv "k" "c1" "c2" "c3" "c4" "c5" "hello"
      50 6 "t").2.2.1 (by decide) (by decide) (by decide) (by decide)
      (by decide) (by decide) (by decide)⟩

/-- C6: when client construction raises, or client construction succeeds
and agent construction raises, the run short-circuits: empty leads, empty
posts, stats with all counters zero and no timestamp, no agent call, no
per-query warning, and the failure surfaces as the run-level error. -/
theorem C6_fatal_init_short_circuits (env : ExternalEnv) (qs : List String)
    (o ck cs at1 ats bt : String) (maxp : Nat) (minsc : Int) (now : String)
    (e : String)
    (h : env.init_error = some e ∨ (env.init_error = none ∧ env.agent_error = some e)) :
    track_leads_on_x env qs o ck cs at1 ats bt maxp minsc now
      = { leads := [], all_posts := [], stats := fresh_stats,
          agent_calls := [], warnings := [], fatal_error := some e } := by
  rcases h with h | ⟨ha, hb⟩
  · simp [track_leads_on_x, h]
  · simp [track_leads_on_x, ha, hb]

/-- Witness for C6: a run whose client construction raises returns the
all-empty outcome with the fatal error recorded. -/
theorem C6_fatal_init_short_circuits_witness :
    track_leads_on_x fatalInitEnv ["a"] "k" "c1" "c2" "c3" "c4" "c5" 50 6 "t"
      = { leads := [], all_posts := [], stats := fresh_stats,
          agent_calls := [], warnings := [], fatal_error := some "boom" } :=
  C6_fatal_init_short_circuits fatalInitEnv ["a"] "k" "c1" "c2" "c3" "c4" "c5"
    50 6 "t" "boom" (Or.inl rfl)

/-- C7: the three sequential exclusion filters of the leads tab are
equivalent to keeping exactly the leads whose bucket is in the selected
set. -/
theorem C7_filter_is_bucket_membership (leads : List Lead) (sel : List Bucket) :
    filtered_leads leads sel
      = leads.filter (fun l => decide (bucket (getScore l) ∈ sel)) :=
  filtered_leads_eq_filter leads sel

/-- C8: the presentation operations are pure functions of their arguments;
filtering twice with the same selection equals filtering once, sorting
twice with the same key equals sorting once, and sorting is stable — two
leads with equal sort keys keep their relative input order (bucket, being a
plain function of the score, is deterministic by definition). -/
theorem C8_formatter_pure_idempotent_stable :
    (∀ (leads : List Lead) (sel : List Bucket),
        filtered_leads (filtered_leads leads sel) sel = filtered_leads leads sel)
    ∧ (∀ (k : SortKey) (leads : List Lead),
        sortLeads k (sortLeads k leads) = sortLeads k leads)
    ∧ (∀ (k : SortKey) (a b : Lead) (leads : List Lead),
        sameKey k a b → List.Sublist [a, b] leads → List.Sublist [a, b] (sortLeads k leads)) := by
  refine ⟨?_, ?_, ?_⟩
  · intro leads sel
    rw [filtered_leads_eq_filter, filtered_leads_eq_filter, List.filter_filter]
    exact List.filter_congr (fun a _ => by simp)
  · intro k leads
    exact List.mergeSort_of_sorted
      (List.sorted_mergeSort (leadLE_trans k) (leadLE_total k) leads)
  · intro k a b leads hk hsub
    exact List.pair_sublist_mergeSort (leadLE_trans k) (leadLE_total k)
      (leadLE_of_sameKey k a b hk) hsub

/-- Witness for C8: concrete idempotence instances, and the pair of two
equal-score leads stays in order under the descending sort. -/
theorem C8_formatter_pure_idempotent_stable_witness :
    filtered_leads (filtered_leads [blank_lead, scored_lead] [Bucket.Low]) [Bucket.Low]
        = filtered_leads [blank_lead, scored_lead] [Bucket.Low]
    ∧ sortLeads .score_asc (sortLeads .score_asc [scored_lead, blank_lead])
        = sortLeads .score_asc [scored_lead, blank_lead]
    ∧ List.Sublist [blank_lead, blank_lead] (sortLeads .score_desc [blank_lead, blank_lead]) :=
  ⟨C8_formatter_pure_idempotent_stable.1 [blank_lead, scored_lead] [Bucket.Low],
    C8_formatter_pure_idempotent_stable.2.1 .score_asc [scored_lead, blank_lead],
    C8_formatter_pure_idempotent_stable.2.2 .score_desc blank_lead blank_lead
      [blank_lead, blank_lead] rfl (List.Sublist.refl _)⟩

/-- C9: whatever the previous session held, clearing resets the leads list
to empty, the posts list to empty, and the stats to all-zero counters with
a null last-search timestamp. -/
theorem C9_clear_resets_session (s : SessionState) :
    clear_results s = initial_session
    ∧ (clear_results s).leads = []
    ∧ (clear_results s).all_posts = []
    ∧ (clear_results s).search_stats
        = { total_posts := 0, analyzed_posts := 0, leads_found := 0,
            last_search := none } :=
  ⟨rfl, rfl, rfl, rfl⟩

/-- C10: a lead record with no score key is treated as score 0 by the
presentation layer: it is counted in the Low bucket of the score
distribution, the filter keeps it exactly when the Low bucket is selected,
and in score-ascending order no lead with a positive score ever precedes
it. -/
theorem C10_missing_score_treated_as_zero (l : Lead) (h : l.score = none) :
    (∀ leads : List Lead,
        score_counts (l :: leads)
          = ((score_counts leads).1, (score_counts leads).2.1,
              (score_counts leads).2.2 + 1))
    ∧ (∀ (leads : List Lead) (sel : List Bucket),
        l ∈ leads → (l ∈ filtered_leads leads sel ↔ Bucket.Low ∈ sel))
    ∧ (∀ (leads : List Lead) (l2 : Lead), 0 < getScore l2 →
        ¬ List.Sublist [l2, l] (sortLeads .score_asc leads)) := by
  have hs : getScore l = 0 := by simp [getScore, h]
  refine ⟨?_, ?_, ?_⟩
  · intro leads
    simp [score_counts, hs]
  · intro leads sel hm
    rw [filtered_leads_eq_filter]
    have hb : bucket (getScore l) = Bucket.Low := by rw [hs]; rfl
    simp [List.mem_filter, hm, hb]
  · intro leads l2 hpos hsub
    unfold sortLeads at hsub
    have hsorted := List.sorted_mergeSort (leadLE_trans .score_asc)
      (leadLE_total .score_asc) leads
    have hp := List.pairwise_pair.mp (List.Pairwise.sublist hsub hsorted)
    simp only [leadLE, decide_eq_true_eq] at hp
    rw [hs] at hp
    omega

/-- Witness for C10: a scoreless lead lands in the Low count, survives the
filter when Low is selected, and never follows a positively scored lead in
the ascending sort. -/
theorem C10_missing_score_treated_as_zero_witness :
    score_counts [blank_lead] = (0, 0, 1)
    ∧ (blank_lead ∈ filtered_leads [blank_lead] [Bucket.Low]
        ↔ Bucket.Low ∈ ([Bucket.Low] : List Bucket))
    ∧ ¬ List.Sublist [scored_lead, blank_lead] (sortLeads .score_asc [blank_lead, scored_lead]) := by
  have h := C10_missing_score_treated_as_zero blank_lead rfl
  refine ⟨?_, h.2.1 [blank_lead] [Bucket.Low] (by simp),
    h.2.2 [blank_lead, scored_lead] scored_lead (by decide)⟩
  have h1 := h.1 []
  simpa [score_counts] using h1

end XLT
